import Mathlib

/-!
# Resilient agent-execution control loop — verification

Shallow embedding of the retry/recovery control loop of the
`agentic-playbook` repository, together with proofs about its claimed
properties.  The embedding follows the TypeScript sources:

* `src/unnamed/part_006` — dual-loop retry orchestrator
  (`resolveMaxRunRetryIterations`, `runAgentWithRetry`,
  `downgradeThinkLevel`, `compactMessages`);
* `src/code_snippets/OpenClaw/auth_failover.ts` — credential rotation
  with cooldown (`isProfileInCooldown`, `advanceAuthProfile`,
  `markProfileFailure`, `resolveMaxRetryIterations`);
* `src/code_snippets/OpenClaw/tool_loop_detection.ts` — tool-loop guard
  (`detectToolCallLoop`, `recordToolCall`, `recordToolCallOutcome`,
  `runBeforeToolCallHook`);
* `src/code_snippets/OpenClaw/context_overflow_recovery.ts` — size
  estimation and tool-result truncation;
* `src/unnamed/part_003` — OpenCode-style prune pass over old tool
  outputs.

Conventions of the embedding: JavaScript numbers are modelled as `Nat`
(all quantities involved are non-negative integers); `Date.now()` is a
fixed parameter `now` (time does not advance inside one loop run);
`sleep` is a no-op; external collaborators (the LLM attempt, the cheap
summarizer, the token estimator) are function parameters; mutation of a
caller-visible array is modelled by returning the post-call contents of
that array.
-/

namespace Retry

/-- Think levels, ordered `off < minimal < low < medium < high < xhigh`
(part_006 `ThinkLevel`). -/
inductive ThinkLevel
  | off
  | minimal
  | low
  | medium
  | high
  | xhigh
deriving DecidableEq, BEq, Repr, Inhabited

/-- Auth profile (part_006 `AuthProfile`); `cooldownUntil` is an optional
millisecond timestamp. -/
structure AuthProfile where
  id : String
  provider : String
  model : String
  apiKey : String
  cooldownUntil : Option Nat
deriving DecidableEq, Repr, Inhabited

/-- Closed error taxonomy of the classifier (part_006 `AttemptError.type`). -/
inductive ErrorType
  | auth
  | overflow
  | timeout
  | rate_limit
  | thinking_mismatch
  | unknown
deriving DecidableEq, Repr

/-- Classified error (part_006 `AttemptError`). -/
structure AttemptError where
  type : ErrorType
  message : String
  retryable : Bool
deriving DecidableEq, Repr

/-- Response payload (part_006 `ResponsePayload`); `isError` models the
optional flag (absent = `false`). -/
structure ResponsePayload where
  text : String
  isError : Bool
deriving DecidableEq, Repr

/-- Token usage (part_006 `TokenUsage`, required fields). -/
structure TokenUsage where
  inputTokens : Nat
  outputTokens : Nat
deriving DecidableEq, Repr

/-- Message roles of part_006 `AgentMessage`. -/
inductive Role
  | user
  | assistant
  | toolResult
deriving DecidableEq, Repr

/-- Conversation turn (part_006 `AgentMessage`). -/
structure AgentMessage where
  role : Role
  content : String
deriving DecidableEq, Repr

/-- Result of one inner-loop attempt (part_006 `AttemptResult`): the
source's `{success, payloads, error?, tokenUsage}` record, in which
`error` is present exactly when `success` is `false`. -/
inductive AttemptResult
  | ok (payloads : List ResponsePayload) (tokenUsage : TokenUsage)
  | err (error : AttemptError) (tokenUsage : TokenUsage)
deriving DecidableEq, Repr

/-- part_006 `BASE_ITERATIONS`. -/
def BASE_ITERATIONS : Nat := 24

/-- part_006 `PER_PROFILE_ITERATIONS`. -/
def PER_PROFILE_ITERATIONS : Nat := 8

/-- part_006 `MIN_ITERATIONS`. -/
def MIN_ITERATIONS : Nat := 32

/-- part_006 `MAX_ITERATIONS`. -/
def MAX_ITERATIONS : Nat := 160

/-- part_006 `resolveMaxRunRetryIterations`: clamp the raw budget
`24 + 8·profileCount` into `[32, 160]`. -/
def resolveMaxRunRetryIterations (profileCount : Nat) : Nat :=
  min MAX_ITERATIONS (max MIN_ITERATIONS (BASE_ITERATIONS + profileCount * PER_PROFILE_ITERATIONS))

/-- The ordered `levels` array of part_006 `downgradeThinkLevel`. -/
def thinkLevels : List ThinkLevel :=
  [.off, .minimal, .low, .medium, .high, .xhigh]

/-- part_006 `downgradeThinkLevel`: one step down the ordered scale,
`off` stays `off`. -/
def downgradeThinkLevel (current : ThinkLevel) : ThinkLevel :=
  let idx := thinkLevels.indexOf current
  if 0 < idx then thinkLevels.getD (idx - 1) .off else .off

/-- The `keepCount` computation of part_006 `compactMessages`:
`Math.ceil(messages.length * ratio)` with ratio `0.5`, `0.5`, `0.25` by
attempt number. -/
def compactKeepCount (attempt len : Nat) : Nat :=
  if attempt = 1 then (len + 1) / 2
  else if attempt = 2 then (len + 1) / 2
  else (len + 3) / 4

/-- part_006 `compactMessages`: keep a recent suffix (`ceil` of 50 %,
50 %, or 25 % of the messages, by attempt number), summarize the prefix
through the external `summarize` collaborator, and prepend two fixed
turns carrying the summary.  In the source `summarizeMessages` is an
external cheap-model call (stubbed there to return `""`). -/
def compactMessages (summarize : List AgentMessage → String)
    (messages : List AgentMessage) (attempt : Nat) : List AgentMessage :=
  let keepCount := compactKeepCount attempt messages.length
  let toSummarize := messages.take (messages.length - keepCount)
  let toKeep := messages.drop (messages.length - keepCount)
  let summary := summarize toSummarize
  ⟨Role.user, "<context_summary>\n" ++ summary ++ "\n</context_summary>"⟩ ::
    ⟨Role.assistant, "Understood. Continuing with the summarized context."⟩ ::
    toKeep

/-- Truthiness test `profile.cooldownUntil && Date.now() < profile.cooldownUntil`
of part_006 (a `0` timestamp is falsy in JavaScript). -/
def cooldownActive (cooldownUntil : Option Nat) (now : Nat) : Bool :=
  match cooldownUntil with
  | none => false
  | some t => decide (t ≠ 0) && decide (now < t)

/-- Componentwise accumulation of token usage (part_006 outer loop). -/
def addUsage (a b : TokenUsage) : TokenUsage :=
  ⟨a.inputTokens + b.inputTokens, a.outputTokens + b.outputTokens⟩

/-- The budget-exhausted payload text of part_006 `runAgentWithRetry`. -/
def budgetExhaustedText : String :=
  "Request failed after repeated internal retries."

/-- Mutable state of the part_006 outer loop (`iterations`,
`overflowCompactionAttempts`, `currentProfileIndex`,
`currentThinkLevel`, `messages`, `totalTokenUsage`), plus the
`authProfiles` array, which the loop mutates when it writes
`profile.cooldownUntil`. -/
structure RunLoopState where
  iterations : Nat
  overflowCompactionAttempts : Nat
  currentProfileIndex : Nat
  currentThinkLevel : ThinkLevel
  messages : List AgentMessage
  totalTokenUsage : TokenUsage
  profiles : List AuthProfile
deriving DecidableEq, Repr

/-- Return value of part_006 `runAgentWithRetry`. -/
structure RunOutcome where
  payloads : List ResponsePayload
  totalTokenUsage : TokenUsage
deriving DecidableEq, Repr

/-- The inner-loop collaborator: `runSingleAttempt` as a black box, a
function of the profile, think level and messages it is given. -/
abbrev AttemptOracle := AuthProfile → ThinkLevel → List AgentMessage → AttemptResult

/-- One pass of the part_006 `while (true)` loop: budget guard,
iteration increment, profile selection, cooldown skip, attempt, token
accumulation, and the 5-tier recovery dispatch.  `Sum.inl` is a return
from the loop, `Sum.inr` a `continue`.  `sleep(5000)` on `rate_limit`
is a no-op in the embedding. -/
def runPass (attempt : AttemptOracle) (summarize : List AgentMessage → String)
    (now maxIterations : Nat) (s : RunLoopState) : RunOutcome ⊕ RunLoopState :=
  if maxIterations ≤ s.iterations then
    .inl ⟨[⟨budgetExhaustedText, true⟩], s.totalTokenUsage⟩
  else
    let s := { s with iterations := s.iterations + 1 }
    let idx := s.currentProfileIndex % s.profiles.length
    let profile := s.profiles.getD idx default
    if cooldownActive profile.cooldownUntil now then
      .inr { s with currentProfileIndex := s.currentProfileIndex + 1 }
    else
      match attempt profile s.currentThinkLevel s.messages with
      | .ok payloads usage =>
          .inl ⟨payloads, addUsage s.totalTokenUsage usage⟩
      | .err e usage =>
          let s := { s with totalTokenUsage := addUsage s.totalTokenUsage usage }
          match e.type with
          | .overflow =>
              let a := s.overflowCompactionAttempts + 1
              let s := { s with overflowCompactionAttempts := a }
              if a ≤ 3 then
                .inr { s with messages := compactMessages summarize s.messages a }
              else if s.currentThinkLevel ≠ ThinkLevel.off then
                .inr { s with currentThinkLevel := downgradeThinkLevel s.currentThinkLevel }
              else
                .inr { s with currentProfileIndex := s.currentProfileIndex + 1 }
          | .auth =>
              .inr { s with
                profiles := s.profiles.set idx { profile with cooldownUntil := some (now + 60000) },
                currentProfileIndex := s.currentProfileIndex + 1 }
          | .timeout =>
              .inr { s with
                profiles := s.profiles.set idx { profile with cooldownUntil := some (now + 30000) },
                currentProfileIndex := s.currentProfileIndex + 1 }
          | .rate_limit =>
              .inr s
          | .thinking_mismatch =>
              .inr { s with currentThinkLevel := downgradeThinkLevel s.currentThinkLevel }
          | .unknown =>
              .inl ⟨[⟨"Error: " ++ e.message, true⟩], s.totalTokenUsage⟩

/-- Fuelled iteration of `runPass`; `none` means the fuel ran out, which
the termination theorem shows cannot happen once the fuel exceeds the
remaining budget. -/
def runLoop (attempt : AttemptOracle) (summarize : List AgentMessage → String)
    (now maxIterations : Nat) : Nat → RunLoopState → Option RunOutcome
  | 0, _ => none
  | fuel + 1, s =>
      match runPass attempt summarize now maxIterations s with
      | .inl out => some out
      | .inr s' => runLoop attempt summarize now maxIterations fuel s'

/-- part_006 `runAgentWithRetry`, with the iteration budget resolved from
the profile count and the fuel fixed at `maxIterations + 1`, which the
budget guard makes sufficient. -/
def runAgentWithRetry (attempt : AttemptOracle) (summarize : List AgentMessage → String)
    (now : Nat) (messages : List AgentMessage) (authProfiles : List AuthProfile)
    (thinkLevel : ThinkLevel) : Option RunOutcome :=
  let maxIterations := resolveMaxRunRetryIterations authProfiles.length
  runLoop attempt summarize now maxIterations (maxIterations + 1)
    ⟨0, 0, 0, thinkLevel, messages, ⟨0, 0⟩, authProfiles⟩

/-- The profile index the loop selects on a pass
(`currentProfileIndex % authProfiles.length`). -/
def selectedIdx (s : RunLoopState) : Nat :=
  s.currentProfileIndex % s.profiles.length

/-- The profile the loop selects on a pass. -/
def selectedProfile (s : RunLoopState) : AuthProfile :=
  s.profiles.getD (selectedIdx s) default

/-- Classified error type carried by an attempt result, when it is a
failure. -/
def AttemptResult.errType : AttemptResult → Option ErrorType
  | .ok _ _ => none
  | .err e _ => some e.type

/-- Whether an attempt result is a failure the recovery dispatch retries
(every classified kind except `unknown`). -/
def AttemptResult.isRetryableFailure : AttemptResult → Bool
  | .ok _ _ => false
  | .err e _ => decide (e.type ≠ ErrorType.unknown)

/-- Total character count of a part_006 conversation (the `historyTextChars`
measure of `context_overflow_recovery.ts`, applied to part_006 messages). -/
def messagesChars (messages : List AgentMessage) : Nat :=
  (messages.map (fun m => m.content.length)).sum

/-- Token estimate of a part_006 conversation:
`Math.ceil(historyTextChars / 4)` as in `context_overflow_recovery.ts`. -/
def messagesTokens (messages : List AgentMessage) : Nat :=
  (messagesChars messages + 3) / 4

end Retry

namespace AuthFailover

/-- Auth profile of `auth_failover.ts`. -/
structure AuthProfile where
  id : String
  provider : String
  apiKey : String
  cooldownUntil : Option Nat
deriving DecidableEq, Repr, Inhabited

/-- Per-profile failure entry of the `AuthStore.failures` map. -/
structure FailureInfo where
  count : Nat
  lastAt : Nat
  reason : String
deriving DecidableEq, Repr

/-- `auth_failover.ts` `AuthStore`; the `failures` `Map` is an
association list in insertion order. -/
structure AuthStore where
  profiles : List AuthProfile
  lastUsedProfileId : Option String
  failures : List (String × FailureInfo)
deriving DecidableEq, Repr

/-- `COOLDOWN_MS` of `auth_failover.ts` (one minute). -/
def COOLDOWN_MS : Nat := 60000

/-- `Map.get` on the failures association list. -/
def lookupFailure (failures : List (String × FailureInfo)) (id : String) : Option FailureInfo :=
  (failures.find? (fun p => p.1 = id)).map (·.2)

/-- `Map.set` on the failures association list: replace in place, or
append when the key is new. -/
def setFailure (failures : List (String × FailureInfo)) (id : String) (v : FailureInfo) :
    List (String × FailureInfo) :=
  if failures.any (fun p => p.1 = id) then
    failures.map (fun p => if p.1 = id then (id, v) else p)
  else failures ++ [(id, v)]

/-- `isProfileInCooldown`: true while `now < lastAt + COOLDOWN_MS`. -/
def isProfileInCooldown (store : AuthStore) (profile : AuthProfile) (now : Nat) : Bool :=
  match lookupFailure store.failures profile.id with
  | none => false
  | some failure => decide (now < failure.lastAt + COOLDOWN_MS)

/-- `markProfileFailure`: bump the count and stamp `lastAt := now`. -/
def markProfileFailure (store : AuthStore) (profileId : String) (reason : String) (now : Nat) :
    AuthStore :=
  let existing := (lookupFailure store.failures profileId).getD ⟨0, 0, ""⟩
  { store with failures := setFailure store.failures profileId ⟨existing.count + 1, now, reason⟩ }

/-- `resolveMaxRetryIterations` of `auth_failover.ts`:
`24 + 8 · max(1, profileCount)`, with no upper clamp. -/
def resolveMaxRetryIterations (profileCount : Nat) : Nat :=
  24 + 8 * max 1 profileCount

/-- The `while (nextIndex < candidates.length)` scan of
`advanceAuthProfile`, starting at index `n`. -/
def advanceFrom (store : AuthStore) (now : Nat) (candidates : List AuthProfile) (n : Nat) :
    Option (AuthProfile × Nat) :=
  if h : n < candidates.length then
    let candidate := candidates.get ⟨n, h⟩
    if isProfileInCooldown store candidate now then
      advanceFrom store now candidates (n + 1)
    else
      some (candidate, n)
  else
    none
termination_by candidates.length - n

/-- `advanceAuthProfile`: scan forward from `currentIndex + 1`, skipping
profiles in cooldown; `none` once the end of the list is passed. -/
def advanceAuthProfile (store : AuthStore) (now : Nat) (candidates : List AuthProfile)
    (currentIndex : Nat) : Option (AuthProfile × Nat) :=
  advanceFrom store now candidates (currentIndex + 1)

end AuthFailover

namespace LoopGuard

/-- Sliding-window entry of `tool_loop_detection.ts` (`ToolCallRecord`). -/
structure ToolCallRecord where
  toolName : String
  argsHash : String
  resultHash : Option String
  toolCallId : Option String
  timestamp : Nat
deriving DecidableEq, Repr

/-- Guard state (`LoopDetectionState`). -/
structure LoopDetectionState where
  toolCallHistory : List ToolCallRecord
deriving DecidableEq, Repr

/-- `TOOL_CALL_HISTORY_SIZE` (sliding window capacity). -/
def TOOL_CALL_HISTORY_SIZE : Nat := 30

/-- `WARNING_THRESHOLD`. -/
def WARNING_THRESHOLD : Nat := 10

/-- `CRITICAL_THRESHOLD`. -/
def CRITICAL_THRESHOLD : Nat := 20

/-- `GLOBAL_CIRCUIT_BREAKER_THRESHOLD`. -/
def GLOBAL_CIRCUIT_BREAKER_THRESHOLD : Nat := 30

/-- `digestStable`: the SHA-256 fingerprint of the key-sorted JSON of a
value, idealized as the identity on the already-serialized argument
string (the guard only ever compares fingerprints for equality, and a
cryptographic hash is collision-free for the purpose of the model). -/
def digestStable (value : String) : String := value

/-- `hashToolCall`. -/
def hashToolCall (toolName : String) (params : String) : String :=
  toolName ++ ":" ++ digestStable params

/-- Backward walk of `getNoProgressStreak` over the reversed history,
carrying the expected result hash once one is seen. -/
def noProgressGo (toolName argsHash : String) : Option String → List ToolCallRecord → Nat
  | _, [] => 0
  | expected, r :: rest =>
    if r.toolName = toolName ∧ r.argsHash = argsHash then
      match r.resultHash with
      | none => 0
      | some h =>
        match expected with
        | none => 1 + noProgressGo toolName argsHash (some h) rest
        | some e => if h = e then 1 + noProgressGo toolName argsHash (some e) rest else 0
    else 0

/-- `getNoProgressStreak`: length of the maximal tail of the history
with the same tool, args and result hash (entries without a result hash
stop the streak). -/
def getNoProgressStreak (history : List ToolCallRecord) (toolName argsHash : String) : Nat :=
  noProgressGo toolName argsHash none history.reverse

/-- The `toolName:argsHash` key used by the ping-pong detector. -/
def recKey (r : ToolCallRecord) : String := r.toolName ++ ":" ++ r.argsHash

/-- Find the most recent record whose key differs from `lastKey`
(the search in `getPingPongStreak`), given the reversed tail. -/
def findOtherKey (lastKey : String) : List ToolCallRecord → Option String
  | [] => none
  | r :: rest => if recKey r ≠ lastKey then some (recKey r) else findOtherKey lastKey rest

/-- The alternation-counting walk of `getPingPongStreak` over the
reversed history: collect the maximal tail whose keys alternate between
`lastKey` and `otherKey`. -/
def pingRun (lastKey otherKey : String) : Bool → List ToolCallRecord → List ToolCallRecord
  | _, [] => []
  | expectLast, r :: rest =>
    let expect := if expectLast then lastKey else otherKey
    if recKey r = expect then r :: pingRun lastKey otherKey (!expectLast) rest else []

/-- Distinct result hashes recorded for `key` within the counted
alternating tail (the `resultsByKey` sets). -/
def resultsFor (key : String) (counted : List ToolCallRecord) : List String :=
  ((counted.filter (fun r => decide (recKey r = key))).filterMap (·.resultHash)).dedup

/-- Return value of `getPingPongStreak`. -/
structure PingPong where
  count : Nat
  noProgressEvidence : Bool
deriving DecidableEq, Repr

/-- `getPingPongStreak`: count the alternating A-B tail and report
whether each side produced at most one distinct result. -/
def getPingPongStreak (history : List ToolCallRecord) : PingPong :=
  if history.length < 4 then ⟨0, false⟩
  else
    match history.reverse with
    | [] => ⟨0, false⟩
    | last :: restRev =>
      let lastKey := recKey last
      match findOtherKey lastKey restRev with
      | none => ⟨0, false⟩
      | some otherKey =>
        let counted := pingRun lastKey otherKey true (last :: restRev)
        let count := counted.length
        let evidence :=
          decide ((resultsFor lastKey counted).length ≤ 1) &&
          decide ((resultsFor otherKey counted).length ≤ 1) &&
          decide (4 ≤ count)
        ⟨count, evidence⟩

/-- Severity level of a detection. -/
inductive Level
  | warning
  | critical
deriving DecidableEq, Repr

/-- The four detectors (`LoopDetectorKind`). -/
inductive Detector
  | generic_repeat
  | known_poll_no_progress
  | global_circuit_breaker
  | ping_pong
deriving DecidableEq, Repr

/-- `LoopDetectionResult`: either not stuck, or a detection with level,
detector, count, message and optional warning key. -/
inductive LoopDetectionResult
  | notStuck
  | stuck (level : Level) (detector : Detector) (count : Nat) (message : String)
      (warningKey : Option String)
deriving DecidableEq, Repr

/-- Whether a detection fired. -/
def LoopDetectionResult.isStuck : LoopDetectionResult → Bool
  | .notStuck => false
  | .stuck _ _ _ _ _ => true

/-- Severity of a detection, when one fired. -/
def LoopDetectionResult.levelOf : LoopDetectionResult → Option Level
  | .notStuck => none
  | .stuck level _ _ _ _ => some level

/-- Detector of a detection, when one fired. -/
def LoopDetectionResult.detectorOf : LoopDetectionResult → Option Detector
  | .notStuck => none
  | .stuck _ detector _ _ _ => some detector

/-- Count of a detection, when one fired. -/
def LoopDetectionResult.countOf : LoopDetectionResult → Option Nat
  | .notStuck => none
  | .stuck _ _ count _ _ => some count

/-- `detectToolCallLoop`: evaluate the detectors most severe first,
exactly in the source's cascade order. -/
def detectToolCallLoop (state : LoopDetectionState) (toolName params : String) :
    LoopDetectionResult :=
  let history := state.toolCallHistory
  if history.length = 0 then .notStuck
  else
    let argsHash := digestStable params
    let noProgressStreak := getNoProgressStreak history toolName argsHash
    if GLOBAL_CIRCUIT_BREAKER_THRESHOLD ≤ noProgressStreak then
      .stuck .critical .global_circuit_breaker noProgressStreak
        ("CRITICAL: " ++ toolName ++ " has repeated identical no-progress outcomes " ++
          toString noProgressStreak ++
          " times. Session execution blocked by global circuit breaker. Try a completely different approach.")
        none
    else if CRITICAL_THRESHOLD ≤ noProgressStreak then
      .stuck .critical .known_poll_no_progress noProgressStreak
        ("CRITICAL: Called " ++ toolName ++ " with identical arguments and no progress " ++
          toString noProgressStreak ++
          " times. This appears to be a stuck polling loop. Stop polling and try a different approach.")
        none
    else if WARNING_THRESHOLD ≤ noProgressStreak then
      .stuck .warning .known_poll_no_progress noProgressStreak
        ("WARNING: " ++ toolName ++ " has been called " ++ toString noProgressStreak ++
          " times with no progress. Consider whether continued polling will produce different results.")
        (some ("poll:" ++ toolName ++ ":" ++ argsHash))
    else
      let pingPong := getPingPongStreak history
      if CRITICAL_THRESHOLD ≤ pingPong.count ∧ pingPong.noProgressEvidence then
        .stuck .critical .ping_pong pingPong.count
          ("CRITICAL: Detected alternating tool call loop (" ++ toString pingPong.count ++
            " iterations) with no progress. Both tools are producing identical results. Break the cycle.")
          none
      else if WARNING_THRESHOLD ≤ pingPong.count then
        .stuck .warning .ping_pong pingPong.count
          ("WARNING: Alternating tool call pattern detected (" ++ toString pingPong.count ++
            " iterations). Verify you are making progress.")
          (some ("pingpong:" ++ toString pingPong.count))
      else
        let recentCount :=
          (history.filter (fun r => decide (r.toolName = toolName ∧ r.argsHash = argsHash))).length
        if WARNING_THRESHOLD ≤ recentCount then
          .stuck .warning .generic_repeat recentCount
            ("WARNING: " ++ toolName ++ " has been called " ++ toString recentCount ++
              " times with identical arguments in the recent window. The result is unlikely to change.")
            (some ("repeat:" ++ toolName ++ ":" ++ argsHash))
        else .notStuck

/-- `recordToolCall`: append a record (no result hash yet) and keep only
the most recent `TOOL_CALL_HISTORY_SIZE` entries. -/
def recordToolCall (state : LoopDetectionState) (toolName params : String)
    (toolCallId : Option String) (timestamp : Nat) : LoopDetectionState :=
  let h := state.toolCallHistory ++ [⟨toolName, digestStable params, none, toolCallId, timestamp⟩]
  ⟨if TOOL_CALL_HISTORY_SIZE < h.length then h.drop (h.length - TOOL_CALL_HISTORY_SIZE) else h⟩

/-- The `toolCallId && rec.toolCallId === toolCallId` test of
`recordToolCallOutcome` (a missing call id is falsy). -/
def matchesById (callId : Option String) (r : ToolCallRecord) : Bool :=
  match callId with
  | some c => decide (r.toolCallId = some c)
  | none => false

/-- The fallback match of `recordToolCallOutcome`: same tool name and
args hash, and no result hash recorded yet. -/
def matchesByArgs (toolName argsHash : String) (r : ToolCallRecord) : Bool :=
  decide (r.toolName = toolName ∧ r.argsHash = argsHash ∧ r.resultHash = none)

/-- The newest-to-oldest scan of `recordToolCallOutcome`, expressed on
the reversed history: patch the first record matching by call id or by
(toolName, argsHash, no result); `none` when nothing matches. -/
def outcomePatch (toolName argsHash resultHash : String) (callId : Option String) :
    List ToolCallRecord → Option (List ToolCallRecord)
  | [] => none
  | r :: rest =>
    if matchesById callId r then
      some ({ r with resultHash := some resultHash } :: rest)
    else if matchesByArgs toolName argsHash r then
      some ({ r with resultHash := some resultHash } :: rest)
    else
      match outcomePatch toolName argsHash resultHash callId rest with
      | some rest' => some (r :: rest')
      | none => none

/-- `recordToolCallOutcome`: patch the result hash into the matching
record (walking from the most recent record backward); no-op when the
history is empty or nothing matches. -/
def recordToolCallOutcome (state : LoopDetectionState) (toolName params resultHash : String)
    (callId : Option String) : LoopDetectionState :=
  if state.toolCallHistory.isEmpty then state
  else
    match outcomePatch toolName (digestStable params) resultHash callId
        state.toolCallHistory.reverse with
    | some rev' => ⟨rev'.reverse⟩
    | none => state

/-- `LOOP_WARNING_BUCKET_SIZE`. -/
def LOOP_WARNING_BUCKET_SIZE : Nat := 10

/-- `shouldEmitLoopWarning`: emit one warning per bucket of 10
occurrences; returns the decision and the updated bucket map. -/
def shouldEmitLoopWarning (emittedBuckets : List (String × Nat)) (warningKey : String)
    (count : Nat) : Bool × List (String × Nat) :=
  let bucket := count / LOOP_WARNING_BUCKET_SIZE
  let lastBucket := ((emittedBuckets.find? (fun p => p.1 = warningKey)).map (·.2)).getD 0
  if bucket ≤ lastBucket then (false, emittedBuckets)
  else
    (true,
      if emittedBuckets.any (fun p => p.1 = warningKey) then
        emittedBuckets.map (fun p => if p.1 = warningKey then (warningKey, bucket) else p)
      else emittedBuckets ++ [(warningKey, bucket)])

/-- `HookOutcome` of `runBeforeToolCallHook`. -/
structure HookOutcome where
  blocked : Bool
  reason : Option String
deriving DecidableEq, Repr

/-- `runBeforeToolCallHook`: a critical detection blocks the call (the
state is left unchanged — the blocked call is never recorded); otherwise
the call is recorded before execution.  Warning logging is a console
side effect outside the model. -/
def runBeforeToolCallHook (state : LoopDetectionState) (toolName params : String)
    (toolCallId : Option String) (timestamp : Nat) : HookOutcome × LoopDetectionState :=
  match detectToolCallLoop state toolName params with
  | .stuck .critical _ _ message _ => (⟨true, some message⟩, state)
  | _ => (⟨false, none⟩, recordToolCall state toolName params toolCallId timestamp)

/-- The `executeToolWithLoopDetection` wrapper of the source's usage
example: run the hook; when not blocked, execute the tool and record the
outcome's result fingerprint.  Returns the new state and whether the
call was blocked. -/
def executeToolCall (state : LoopDetectionState) (toolName params result : String)
    (toolCallId : Option String) (timestamp : Nat) : LoopDetectionState × Bool :=
  let hook := runBeforeToolCallHook state toolName params toolCallId timestamp
  if hook.1.blocked then (hook.2, true)
  else (recordToolCallOutcome hook.2 toolName params (digestStable result) toolCallId, false)

/-- Feed `n` identical `(toolName, params, result)` calls through the
guard, starting from an empty window. -/
def feedRepeat (toolName params result : String) : Nat → LoopDetectionState
  | 0 => ⟨[]⟩
  | n + 1 => (executeToolCall (feedRepeat toolName params result n) toolName params result none 0).1

/-- Feed a list of `(toolName, params, result)` calls through the guard,
reporting the final state and whether any call was blocked. -/
def runSeq (calls : List (String × String × String)) : LoopDetectionState × Bool :=
  calls.foldl
    (fun acc c =>
      let step := executeToolCall acc.1 c.1 c.2.1 c.2.2 none 0
      (step.1, acc.2 || step.2))
    (⟨[]⟩, false)

/-- An alternating two-tool call sequence `(A,r1),(B,r2),(A,r1),…` of
length `n`. -/
def alternating (r1 r2 : String) (n : Nat) : List (String × String × String) :=
  (List.range n).map (fun i => if i % 2 = 0 then ("A", "argA", r1) else ("B", "argB", r2))

/-- The same alternating sequence, but tool A's result changes partway
through (from the sixth A call on). -/
def alternatingChanged (n : Nat) : List (String × String × String) :=
  (List.range n).map (fun i =>
    if i % 2 = 0 then ("A", "argA", if i < 10 then "r1" else "r1changed")
    else ("B", "argB", "r2"))

end LoopGuard

namespace ContextRecovery

/-- Message of `context_overflow_recovery.ts` (`AgentMessage` there):
role, content, and the tool name for tool results. -/
structure Msg where
  role : Retry.Role
  content : String
  toolName : Option String
deriving DecidableEq, Repr

/-- `CHARS_PER_TOKEN_ESTIMATE`. -/
def CHARS_PER_TOKEN_ESTIMATE : Nat := 4

/-- Total character count of the history
(`summarizeCompactionMessages.historyTextChars`). -/
def historyTextChars (messages : List Msg) : Nat :=
  (messages.map (fun m => m.content.length)).sum

/-- `estimatedTokens = Math.ceil(historyTextChars / 4)`. -/
def estimatedTokens (messages : List Msg) : Nat :=
  (historyTextChars messages + 3) / 4

/-- `maxToolResultChars`: `Math.floor(contextWindowTokens * 0.3) * 4`,
with the exact decimal `0.3` in place of its floating-point rounding. -/
def maxToolResultChars (contextWindowTokens : Nat) : Nat :=
  contextWindowTokens * 3 / 10 * CHARS_PER_TOKEN_ESTIMATE

/-- The note appended by `truncateOversizedToolResults` (interpolating
the original and truncated sizes). -/
def truncateNote (origLen maxChars : Nat) : String :=
  "\n\n[Truncated: original " ++ toString origLen ++ " chars → " ++ toString maxChars ++ " chars]"

/-- The in-place rewrite `truncateOversizedToolResults` applies to one
message: oversized tool results are cut to the budget and the note is
appended; everything else is left alone. -/
def truncateMsg (maxChars : Nat) (m : Msg) : Msg :=
  if m.role = Retry.Role.toolResult ∧ maxChars < m.content.length then
    { m with content := m.content.take maxChars ++ truncateNote m.content.length maxChars }
  else m

/-- `truncateOversizedToolResults`: the first component is the
caller-visible contents of the `messages` array after the call (the
source assigns `msg.content` in place), the second the
`truncatedCount` of its `TruncationResult`. -/
def truncateOversizedToolResults (messages : List Msg) (contextWindowTokens : Nat) :
    List Msg × Nat :=
  let maxChars := maxToolResultChars contextWindowTokens
  (messages.map (truncateMsg maxChars),
    (messages.filter
      (fun m => decide (m.role = Retry.Role.toolResult ∧ maxChars < m.content.length))).length)

end ContextRecovery

namespace OpenCodePrune

/-- Roles of part_003 messages. -/
inductive PRole
  | user
  | assistant
deriving DecidableEq, Repr

/-- Message part of part_003: a completed tool part carries the tool
name, its output text, and whether it was already cleared
(`state.time.compacted`); `isTool` covers `part.type === "tool"`,
`completed` covers `state.status === "completed"`. -/
structure Part where
  isTool : Bool
  tool : String
  completed : Bool
  output : String
  compacted : Bool
deriving DecidableEq, Repr

/-- part_003 message: role, the `info.summary` compaction-boundary flag,
and the parts. -/
structure PMessage where
  role : PRole
  summary : Bool
  parts : List Part
deriving DecidableEq, Repr

/-- `PRUNE_MINIMUM`: only prune when the savings exceed 20K tokens. -/
def PRUNE_MINIMUM : Nat := 20000

/-- `PRUNE_PROTECT`: keep the last 40K tokens of tool output. -/
def PRUNE_PROTECT : Nat := 40000

/-- `PRUNE_PROTECTED_TOOLS`. -/
def PRUNE_PROTECTED_TOOLS : List String := ["skill"]

/-- The replacement text of a pruned tool output. -/
def PRUNE_PLACEHOLDER : String := "[Old tool result content cleared]"

/-- Accumulator of the prune scan: user turns seen, running tool-output
total, and the total marked for pruning. -/
structure PScan where
  turns : Nat
  total : Nat
  prunedSum : Nat
deriving DecidableEq, Repr

/-- Inner (per-part, backward) walk of part_003 `prune` over one
message's parts, given with their indices, most recent first.  Returns
the updated accumulator, the `(msgIndex, partIndex)` marks, and whether
the labelled `break loop` fired (an already-pruned part was reached). -/
def pruneScanParts (est : String → Nat) (mi : Nat) :
    PScan → List (Nat × Part) → PScan × List (Nat × Nat) × Bool
  | s, [] => (s, [], false)
  | s, (pi, p) :: rest =>
    if p.isTool ∧ p.completed then
      if p.tool ∈ PRUNE_PROTECTED_TOOLS then pruneScanParts est mi s rest
      else if p.compacted then (s, [], true)
      else
        let e := est p.output
        let total := s.total + e
        if PRUNE_PROTECT < total then
          let step := pruneScanParts est mi ⟨s.turns, total, s.prunedSum + e⟩ rest
          (step.1, (mi, pi) :: step.2.1, step.2.2)
        else pruneScanParts est mi ⟨s.turns, total, s.prunedSum⟩ rest
    else pruneScanParts est mi s rest

/-- Outer (per-message, backward) walk of part_003 `prune`: skip the
last two user turns, stop at a compaction-boundary summary message, and
scan each remaining message's parts. -/
def pruneScanMsgs (est : String → Nat) :
    PScan → List (Nat × PMessage) → PScan × List (Nat × Nat)
  | s, [] => (s, [])
  | s, (mi, m) :: rest =>
    let s1 := if m.role = PRole.user then { s with turns := s.turns + 1 } else s
    if s1.turns < 2 then pruneScanMsgs est s1 rest
    else if m.role = PRole.assistant ∧ m.summary then (s1, [])
    else
      let inner := pruneScanParts est mi s1 m.parts.enum.reverse
      if inner.2.2 then (inner.1, inner.2.1)
      else
        let outer := pruneScanMsgs est inner.1 rest
        (outer.1, inner.2.1 ++ outer.2)

/-- Clearing a pruned tool part: the output becomes the placeholder and
the part is stamped as compacted. -/
def clearPart (p : Part) : Part :=
  if p.isTool then { p with output := PRUNE_PLACEHOLDER, compacted := true } else p

/-- part_003 `prune`, parametrized by the token estimator `est` (the
source's `estimateTokens`, an external size-estimate collaborator that
is stubbed in the repository): scan backward collecting parts beyond the
protection threshold, and clear them only when the savings exceed
`PRUNE_MINIMUM`. -/
def prune (est : String → Nat) (msgs : List PMessage) : List PMessage :=
  let scan := pruneScanMsgs est ⟨0, 0, 0⟩ msgs.enum.reverse
  if PRUNE_MINIMUM < scan.1.prunedSum then
    msgs.enum.map (fun mp =>
      { mp.2 with
        parts := mp.2.parts.enum.map (fun pp =>
          if (mp.1, pp.1) ∈ scan.2 then clearPart pp.2 else pp.2) })
  else msgs

/-- Size estimate of one message: the estimates of its parts' outputs,
summed. -/
def msgEstimate (est : String → Nat) (m : PMessage) : Nat :=
  (m.parts.map (fun p => est p.output)).sum

/-- Size estimate of a conversation under the estimator `est`. -/
def convEstimate (est : String → Nat) (msgs : List PMessage) : Nat :=
  (msgs.map (msgEstimate est)).sum

end OpenCodePrune

namespace Fixtures

open Retry

/-- An attempt collaborator that always fails with an overflow-classified
error. -/
def overflowOracle : AttemptOracle :=
  fun _ _ _ => .err ⟨.overflow, "context length exceeded", true⟩ ⟨0, 0⟩

/-- An attempt collaborator that always fails with an auth-classified
error. -/
def authOracle : AttemptOracle :=
  fun _ _ _ => .err ⟨.auth, "401 unauthorized", true⟩ ⟨3, 4⟩

/-- An attempt collaborator that always fails with a timeout-classified
error. -/
def timeoutOracle : AttemptOracle :=
  fun _ _ _ => .err ⟨.timeout, "request timed out", true⟩ ⟨3, 4⟩

/-- An attempt collaborator that always fails with a rate-limit-classified
error. -/
def rateLimitOracle : AttemptOracle :=
  fun _ _ _ => .err ⟨.rate_limit, "429 too many requests", true⟩ ⟨3, 4⟩

/-- A single auth profile, not in cooldown. -/
def profileA : Retry.AuthProfile :=
  ⟨"A", "anthropic", "model-a", "key-a", none⟩

/-- A short starting conversation. -/
def msgs0 : List AgentMessage :=
  [⟨.user, "hi"⟩]

/-- A concrete loop state with one fresh profile, used by witnesses. -/
def state0 : RunLoopState :=
  ⟨0, 0, 0, .high, msgs0, ⟨0, 0⟩, [profileA]⟩

/-- Two tiny user turns: a conversation on which part_006 compaction
strictly grows the character count. -/
def tinyMsgs : List AgentMessage :=
  [⟨.user, "x"⟩, ⟨.user, "y"⟩]

/-- Two rotation candidates, neither in cooldown. -/
def candA : AuthFailover.AuthProfile := ⟨"candA", "anthropic", "key-a", none⟩

/-- Second rotation candidate. -/
def candB : AuthFailover.AuthProfile := ⟨"candB", "anthropic", "key-b", none⟩

/-- Third rotation candidate. -/
def candC : AuthFailover.AuthProfile := ⟨"candC", "openai", "key-c", none⟩

/-- A store in which only `candB` has a recent failure (it is in cooldown
at `now = 0`). -/
def storeB : AuthFailover.AuthStore :=
  ⟨[candA, candB, candC], none, [("candB", ⟨1, 0, "auth_error"⟩)]⟩

/-- A store with no recorded failures. -/
def storeEmpty : AuthFailover.AuthStore :=
  ⟨[candA, candB], none, []⟩

/-- An older guard window record with no result fingerprint. -/
def recOld : LoopGuard.ToolCallRecord := ⟨"t", "a", none, none, 0⟩

/-- A newer guard window record with no result fingerprint, same tool
and args as `recOld`. -/
def recNew : LoopGuard.ToolCallRecord := ⟨"t", "a", none, none, 1⟩

/-- A single oversized tool-result message for a context window of 10
tokens (budget 12 chars, content 16 chars). -/
def oversizedMsgs : List ContextRecovery.Msg :=
  [⟨Retry.Role.toolResult, "0123456789012345", some "read"⟩]

/-- A small in-budget conversation for the truncation no-op witness. -/
def smallMsgs : List ContextRecovery.Msg :=
  [⟨Retry.Role.user, "hello", none⟩, ⟨Retry.Role.toolResult, "ok", some "read"⟩]

/-- A coarse token estimator: a thousand tokens per character.  Keeps
the witness conversations tiny while still crossing the prune
thresholds. -/
def est1000 : String → Nat := fun s => 1000 * s.length

/-- A part_003 conversation with two completed tool outputs whose
`est1000` estimates (41 000 each) cross the 40K protection threshold,
preceded by two user turns that shield nothing. -/
def pruneConv : List OpenCodePrune.PMessage :=
  [⟨.assistant, false,
      [⟨true, "read", true, String.mk (List.replicate 41 'a'), false⟩,
       ⟨true, "read", true, String.mk (List.replicate 41 'b'), false⟩]⟩,
   ⟨.user, false, []⟩,
   ⟨.user, false, []⟩]

/-- A four-turn conversation whose first half (102 characters) outweighs
the two turns compaction inserts (88 characters): compaction strictly
shrinks it. -/
def bigMsgs : List AgentMessage :=
  [⟨.user, String.mk (List.replicate 100 'z')⟩, ⟨.assistant, "ok"⟩,
   ⟨.user, "q"⟩, ⟨.assistant, "a"⟩]

end Fixtures

/-! ## Theorems -/

set_option maxRecDepth 40000

/-- C1: for every profile count `N ∈ [1, 20]`, the retry budget computed
from `N` equals `clamp(24 + 8·N, 32, 160)`; in particular `N = 1` yields
32, `N = 2` yields 40, and `N = 20` yields 160 (clamped). -/
theorem claim1_retry_budget_clamp (n : Nat) (h1 : 1 ≤ n) (h2 : n ≤ 20) :
    Retry.resolveMaxRunRetryIterations n = min 160 (max 32 (24 + 8 * n)) ∧
    Retry.resolveMaxRunRetryIterations 1 = 32 ∧
    Retry.resolveMaxRunRetryIterations 2 = 40 ∧
    Retry.resolveMaxRunRetryIterations 20 = 160 := by
  refine ⟨?_, by decide, by decide, by decide⟩
  unfold Retry.resolveMaxRunRetryIterations Retry.MAX_ITERATIONS Retry.MIN_ITERATIONS
    Retry.BASE_ITERATIONS Retry.PER_PROFILE_ITERATIONS
  omega

/-- Witness for C1 at `N = 2`. -/
theorem claim1_retry_budget_clamp_witness :
    Retry.resolveMaxRunRetryIterations 2 = min 160 (max 32 (24 + 8 * 2)) ∧
    Retry.resolveMaxRunRetryIterations 1 = 32 ∧
    Retry.resolveMaxRunRetryIterations 2 = 40 ∧
    Retry.resolveMaxRunRetryIterations 20 = 160 :=
  claim1_retry_budget_clamp 2 (by decide) (by decide)

/-- C3 (counterexample): feeding identical `(tool, args, result)` calls
through the guard's before-tool-call path, the 10th call — which sees a
window of 9 completed records — produces **no** detection (the claim
says it warns); the 20th call (19 records) produces only a warning (the
claim says it critically blocks); and the 30th call's detection is the
known-poll detector, not the global circuit breaker (blocked calls are
never recorded, so the streak stays pinned at 20 and the breaker
threshold of 30 is unreachable). -/
theorem claim3_guard_counterexample :
    LoopGuard.detectToolCallLoop (LoopGuard.feedRepeat "poll" "a" "r" 9) "poll" "a" =
      LoopGuard.LoopDetectionResult.notStuck ∧
    (LoopGuard.detectToolCallLoop (LoopGuard.feedRepeat "poll" "a" "r" 19) "poll" "a").levelOf =
      some LoopGuard.Level.warning ∧
    (LoopGuard.detectToolCallLoop (LoopGuard.feedRepeat "poll" "a" "r" 29) "poll" "a").detectorOf ≠
      some LoopGuard.Detector.global_circuit_breaker := by decide

/-- C3 (amended): the first 10 identical calls produce no detection; the
11th produces a warning (streak 10) and still executes; the 21st (streak
20) is critically blocked; a blocked call is not recorded, so every
further identical call is again blocked at streak 20 and the global
circuit breaker (streak 30) is never tripped through the hook. -/
theorem claim3_guard_amended :
    LoopGuard.detectToolCallLoop (LoopGuard.feedRepeat "poll" "a" "r" 9) "poll" "a" =
      LoopGuard.LoopDetectionResult.notStuck ∧
    (LoopGuard.detectToolCallLoop (LoopGuard.feedRepeat "poll" "a" "r" 10) "poll" "a").levelOf =
      some LoopGuard.Level.warning ∧
    (LoopGuard.detectToolCallLoop (LoopGuard.feedRepeat "poll" "a" "r" 10) "poll" "a").detectorOf =
      some LoopGuard.Detector.known_poll_no_progress ∧
    (LoopGuard.executeToolCall (LoopGuard.feedRepeat "poll" "a" "r" 10) "poll" "a" "r" none 0).2 =
      false ∧
    (LoopGuard.detectToolCallLoop (LoopGuard.feedRepeat "poll" "a" "r" 20) "poll" "a").levelOf =
      some LoopGuard.Level.critical ∧
    (LoopGuard.detectToolCallLoop (LoopGuard.feedRepeat "poll" "a" "r" 20) "poll" "a").countOf =
      some 20 ∧
    (LoopGuard.executeToolCall (LoopGuard.feedRepeat "poll" "a" "r" 20) "poll" "a" "r" none 0).2 =
      true ∧
    LoopGuard.feedRepeat "poll" "a" "r" 30 = LoopGuard.feedRepeat "poll" "a" "r" 20 ∧
    (LoopGuard.detectToolCallLoop (LoopGuard.feedRepeat "poll" "a" "r" 30) "poll" "a").detectorOf =
      some LoopGuard.Detector.known_poll_no_progress := by decide

/-- C8 (counterexample): in an alternating `(A,r1),(B,r2),…` run with
unchanging results, the 20th call — which sees 19 alternating records —
is only warned, and no call among the first 20 is blocked; the claim's
"20 total calls triggers a critical block" is false. -/
theorem claim8_pingpong_counterexample :
    (LoopGuard.detectToolCallLoop (LoopGuard.runSeq (LoopGuard.alternating "r1" "r2" 19)).1
        "B" "argB").levelOf = some LoopGuard.Level.warning ∧
    (LoopGuard.runSeq (LoopGuard.alternating "r1" "r2" 20)).2 = false := by decide

/-- C8 (amended): the 20-call alternating run completes unblocked; the
21st call, which sees an alternation count of 20 with one distinct
result per side, is critically blocked by the ping-pong detector; and
when A's result changes partway through, both of A's result fingerprints
sit in the counted window, so no call of a 30-call run is ever
blocked (no false positive). -/
theorem claim8_pingpong_amended :
    (LoopGuard.runSeq (LoopGuard.alternating "r1" "r2" 20)).2 = false ∧
    (LoopGuard.detectToolCallLoop (LoopGuard.runSeq (LoopGuard.alternating "r1" "r2" 20)).1
        "A" "argA").levelOf = some LoopGuard.Level.critical ∧
    (LoopGuard.detectToolCallLoop (LoopGuard.runSeq (LoopGuard.alternating "r1" "r2" 20)).1
        "A" "argA").detectorOf = some LoopGuard.Detector.ping_pong ∧
    (LoopGuard.detectToolCallLoop (LoopGuard.runSeq (LoopGuard.alternating "r1" "r2" 20)).1
        "A" "argA").countOf = some 20 ∧
    (LoopGuard.runSeq (LoopGuard.alternating "r1" "r2" 21)).2 = true ∧
    (LoopGuard.runSeq (LoopGuard.alternatingChanged 30)).2 = false := by decide

/-- C9 (counterexample): with two result-less records for the same
`(toolName, argsFingerprint)` in the window and no call id, the outcome
is patched into the **newest** record; the oldest matching record stays
unpatched, contradicting the claimed oldest-first matching. -/
theorem claim9_outcome_counterexample :
    LoopGuard.recordToolCallOutcome ⟨[Fixtures.recOld, Fixtures.recNew]⟩ "t" "a" "h" none =
      ⟨[Fixtures.recOld, ⟨"t", "a", some "h", none, 1⟩]⟩ ∧
    LoopGuard.recordToolCallOutcome ⟨[Fixtures.recOld, Fixtures.recNew]⟩ "t" "a" "h" none ≠
      ⟨[⟨"t", "a", some "h", none, 0⟩, Fixtures.recNew]⟩ := by decide

/-- C7 (counterexample): `truncateOversizedToolResults` rewrites
oversized tool-result contents in place, so the conversation the caller
passed in is **not** unchanged afterwards. -/
theorem claim7_truncate_counterexample :
    (ContextRecovery.truncateOversizedToolResults Fixtures.oversizedMsgs 10).1 ≠
      Fixtures.oversizedMsgs := by decide

/-- C6 (counterexample): a conversation of two one-character turns is
oversized for a zero budget, tier-1 pruning leaves it unchanged (it has
no tool results), and the tier-2 compaction — with the source's stub
summarizer — **increases** the token estimate (from 1 to 23) instead of
strictly reducing it, because the two inserted summary turns are larger
than the removed prefix. -/
theorem claim6_recovery_counterexample :
    0 < Retry.messagesTokens Fixtures.tinyMsgs ∧
    0 < Retry.messagesTokens (Retry.compactMessages (fun _ => "") Fixtures.tinyMsgs 1) ∧
    ¬ Retry.messagesTokens (Retry.compactMessages (fun _ => "") Fixtures.tinyMsgs 1) <
        Retry.messagesTokens Fixtures.tinyMsgs := by decide

/-- C4 (counterexample): one profile, every attempt failing with an
overflow-classified error: after the three compaction attempts and the
downgrades `high → … → off`, the tier-5 rotation wraps back to the same
sole profile, so the loop runs its full budget of 32 iterations and
returns the generic budget-exhausted payload — not a `Failed` outcome
carrying the overflow error (which would be the `"Error: …"` payload of
the non-retryable branch). -/
theorem claim4_overflow_counterexample :
    Retry.runAgentWithRetry Fixtures.overflowOracle (fun _ => "") 0 Fixtures.msgs0
        [Fixtures.profileA] Retry.ThinkLevel.high =
      some ⟨[⟨Retry.budgetExhaustedText, true⟩], ⟨0, 0⟩⟩ ∧
    Retry.budgetExhaustedText ≠ "Error: context length exceeded" := by decide

/-- Full characterization of the `advanceAuthProfile` scan from an
arbitrary start index: a returned profile is never in cooldown and sits
at the returned in-range index, and the scan returns `none` exactly when
every candidate from the start index to the end of the list is in
cooldown. -/
lemma advanceFrom_spec (store : AuthFailover.AuthStore) (now : Nat)
    (candidates : List AuthFailover.AuthProfile) :
    ∀ n,
      (∀ p i, AuthFailover.advanceFrom store now candidates n = some (p, i) →
        n ≤ i ∧ ∃ h : i < candidates.length,
          p = candidates.get ⟨i, h⟩ ∧ AuthFailover.isProfileInCooldown store p now = false) ∧
      (AuthFailover.advanceFrom store now candidates n = none ↔
        ∀ i (h : i < candidates.length), n ≤ i →
          AuthFailover.isProfileInCooldown store (candidates.get ⟨i, h⟩) now = true) := by
  intro n
  induction n using AuthFailover.advanceFrom.induct store now candidates with
  | case1 x h cand hcool ih =>
      have hstep : AuthFailover.advanceFrom store now candidates x =
          AuthFailover.advanceFrom store now candidates (x + 1) := by
        rw [AuthFailover.advanceFrom]
        simp only [h, dite_true]
        rw [if_pos hcool]
      constructor
      · intro p i hsome
        rw [hstep] at hsome
        obtain ⟨hle, hrest⟩ := ih.1 p i hsome
        exact ⟨by omega, hrest⟩
      · rw [hstep, ih.2]
        constructor
        · intro hall i hi hxi
          rcases Nat.eq_or_lt_of_le hxi with heq | hlt
          · subst heq
            exact hcool
          · exact hall i hi (by omega)
        · intro hall i hi hxi
          exact hall i hi (by omega)
  | case2 x h cand hcool =>
      have hstep : AuthFailover.advanceFrom store now candidates x =
          some (candidates.get ⟨x, h⟩, x) := by
        rw [AuthFailover.advanceFrom]
        simp only [h, dite_true]
        rw [if_neg hcool]
      constructor
      · intro p i hsome
        rw [hstep] at hsome
        injection hsome with hpi
        injection hpi with hp hi
        subst hi
        refine ⟨le_refl x, h, hp.symm, ?_⟩
        subst hp
        exact Bool.eq_false_iff.mpr (fun habs => hcool habs)
      · rw [hstep]
        simp only [reduceCtorEq, false_iff, not_forall]
        push_neg
        exact ⟨x, h, le_refl x, fun habs => hcool habs⟩
  | case3 x h =>
      have hstep : AuthFailover.advanceFrom store now candidates x = none := by
        rw [AuthFailover.advanceFrom]
        simp only [h, dite_false]
      constructor
      · intro p i hsome
        rw [hstep] at hsome
        exact absurd hsome (by simp)
      · rw [hstep]
        simp only [true_iff]
        intro i hi hxi
        exact absurd (lt_of_le_of_lt hxi hi) h

/-- C2 (amended): `advanceAuthProfile` scans forward *non-circularly*
from `currentIndex + 1` to the end of the candidate list, skipping
cooled-down profiles: any profile it returns is not in cooldown and sits
at an index strictly greater than `currentIndex`; and it returns `none`
exactly when every candidate at an index strictly above `currentIndex`
is in cooldown — even when an earlier candidate (for example index 0) is
available. -/
theorem claim2_advance_spec (store : AuthFailover.AuthStore) (now : Nat)
    (candidates : List AuthFailover.AuthProfile) (currentIndex : Nat) :
    (∀ p i, AuthFailover.advanceAuthProfile store now candidates currentIndex = some (p, i) →
      AuthFailover.isProfileInCooldown store p now = false ∧ currentIndex < i ∧
        ∃ h : i < candidates.length, p = candidates.get ⟨i, h⟩) ∧
    (AuthFailover.advanceAuthProfile store now candidates currentIndex = none ↔
      ∀ i (h : i < candidates.length), currentIndex < i →
        AuthFailover.isProfileInCooldown store (candidates.get ⟨i, h⟩) now = true) := by
  have hs := advanceFrom_spec store now candidates (currentIndex + 1)
  constructor
  · intro p i hsome
    obtain ⟨hle, hlen, hp, hcool⟩ := hs.1 p i hsome
    exact ⟨hcool, by omega, hlen, hp⟩
  · rw [AuthFailover.advanceAuthProfile, hs.2]
    constructor
    · intro hall i hi hci
      exact hall i hi (by omega)
    · intro hall i hi hci
      exact hall i hi (by omega)

/-- C2 (counterexample): with two candidates of which the first is *not*
in cooldown, advancing from `currentIndex = 1` returns `none` — the scan
does not wrap around to index 0, so "returns none exactly when every
profile is in cooldown" is false. -/
theorem claim2_advance_counterexample :
    AuthFailover.advanceAuthProfile Fixtures.storeEmpty 0
        [Fixtures.candA, Fixtures.candB] 1 = none ∧
    AuthFailover.isProfileInCooldown Fixtures.storeEmpty Fixtures.candA 0 = false := by
  constructor
  · rw [AuthFailover.advanceAuthProfile, AuthFailover.advanceFrom]
    norm_num
  · decide

/-- Witness for C2: starting at index 0 of three candidates with the
second in cooldown, the scan lands on the third candidate: it is not in
cooldown and sits past the start index. -/
theorem claim2_advance_witness :
    AuthFailover.isProfileInCooldown Fixtures.storeB Fixtures.candC 0 = false ∧ 0 < 2 ∧
      ∃ h : 2 < ([Fixtures.candA, Fixtures.candB, Fixtures.candC] :
          List AuthFailover.AuthProfile).length,
        Fixtures.candC = [Fixtures.candA, Fixtures.candB, Fixtures.candC].get ⟨2, h⟩ :=
  (claim2_advance_spec Fixtures.storeB 0 [Fixtures.candA, Fixtures.candB, Fixtures.candC] 0).1
    Fixtures.candC 2 (by
      have hB : AuthFailover.isProfileInCooldown Fixtures.storeB Fixtures.candB 0 = true := by
        decide
      have hC : AuthFailover.isProfileInCooldown Fixtures.storeB Fixtures.candC 0 = false := by
        decide
      have h2 : AuthFailover.advanceFrom Fixtures.storeB 0
          [Fixtures.candA, Fixtures.candB, Fixtures.candC] 2 = some (Fixtures.candC, 2) := by
        rw [AuthFailover.advanceFrom]
        simp [hC]
      have h1 : AuthFailover.advanceFrom Fixtures.storeB 0
          [Fixtures.candA, Fixtures.candB, Fixtures.candC] 1 = some (Fixtures.candC, 2) := by
        rw [AuthFailover.advanceFrom]
        simp [hB, h2]
      rw [AuthFailover.advanceAuthProfile, h1])

/-- When the iteration budget is already consumed, a pass returns the
budget-exhausted payload with the usage accumulated so far. -/
lemma runPass_budget (attempt : Retry.AttemptOracle)
    (summarize : List Retry.AgentMessage → String)
    (now maxIterations : Nat) (s : Retry.RunLoopState) (h : maxIterations ≤ s.iterations) :
    Retry.runPass attempt summarize now maxIterations s =
      .inl ⟨[⟨Retry.budgetExhaustedText, true⟩], s.totalTokenUsage⟩ := by
  simp [Retry.runPass, h]

/-- Every `continue` of the outer loop increments the iteration counter
by exactly one — including the cooldown-skip branch that runs no
attempt. -/
lemma runPass_continue_iterations (attempt : Retry.AttemptOracle)
    (summarize : List Retry.AgentMessage → String) (now maxIterations : Nat)
    (s s' : Retry.RunLoopState)
    (h : Retry.runPass attempt summarize now maxIterations s = .inr s') :
    s'.iterations = s.iterations + 1 := by
  by_cases hg : maxIterations ≤ s.iterations
  · rw [runPass_budget attempt summarize now maxIterations s hg] at h
    cases h
  · simp only [Retry.runPass, if_neg hg] at h
    split at h
    · injection h with h'
      subst h'
      rfl
    · split at h
      · cases h
      · split at h
        · split at h
          · injection h with h'
            subst h'
            rfl
          · split at h
            · injection h with h'
              subst h'
              rfl
            · injection h with h'
              subst h'
              rfl
        · injection h with h'
          subst h'
          rfl
        · injection h with h'
          subst h'
          rfl
        · injection h with h'
          subst h'
          rfl
        · injection h with h'
          subst h'
          rfl
        · cases h

/-- Under an attempt collaborator that always fails with a retryable
kind, a pass inside the budget always continues. -/
lemma runPass_fail_continue (attempt : Retry.AttemptOracle)
    (summarize : List Retry.AgentMessage → String) (now maxIterations : Nat)
    (s : Retry.RunLoopState)
    (hfail : ∀ p t m, (attempt p t m).isRetryableFailure = true)
    (hg : s.iterations < maxIterations) :
    ∃ s', Retry.runPass attempt summarize now maxIterations s = .inr s' := by
  simp only [Retry.runPass, if_neg (not_le.mpr hg)]
  split
  · exact ⟨_, rfl⟩
  · have hf := hfail ({ s with iterations := s.iterations + 1 }.profiles.getD
      ({ s with iterations := s.iterations + 1 }.currentProfileIndex %
        { s with iterations := s.iterations + 1 }.profiles.length) default)
      s.currentThinkLevel s.messages
    split
    · rename_i payloads usage heq
      rw [heq] at hf
      simp [Retry.AttemptResult.isRetryableFailure] at hf
    · rename_i e usage heq
      rw [heq] at hf
      simp only [Retry.AttemptResult.isRetryableFailure, decide_eq_true_eq] at hf
      split
      · split
        · exact ⟨_, rfl⟩
        · split
          · exact ⟨_, rfl⟩
          · exact ⟨_, rfl⟩
      · exact ⟨_, rfl⟩
      · exact ⟨_, rfl⟩
      · exact ⟨_, rfl⟩
      · exact ⟨_, rfl⟩
      · rename_i htype
        exact absurd htype hf

/-- Under an always-retryable-failure collaborator, the only way a pass
leaves the loop is the budget guard. -/
lemma runPass_fail_inl (attempt : Retry.AttemptOracle)
    (summarize : List Retry.AgentMessage → String) (now maxIterations : Nat)
    (s : Retry.RunLoopState)
    (hfail : ∀ p t m, (attempt p t m).isRetryableFailure = true)
    (out : Retry.RunOutcome)
    (h : Retry.runPass attempt summarize now maxIterations s = .inl out) :
    out = ⟨[⟨Retry.budgetExhaustedText, true⟩], s.totalTokenUsage⟩ := by
  by_cases hg : maxIterations ≤ s.iterations
  · rw [runPass_budget attempt summarize now maxIterations s hg] at h
    injection h with h'
    exact h'.symm
  · obtain ⟨s', hs'⟩ := runPass_fail_continue attempt summarize now maxIterations s hfail
      (by omega)
    rw [hs'] at h
    cases h

/-- Fuel exceeding the remaining budget always suffices: the loop
returns. -/
lemma runLoop_isSome (attempt : Retry.AttemptOracle)
    (summarize : List Retry.AgentMessage → String) (now maxIterations : Nat) :
    ∀ fuel s, 0 < fuel → maxIterations < s.iterations + fuel →
      (Retry.runLoop attempt summarize now maxIterations fuel s).isSome = true := by
  intro fuel
  induction fuel with
  | zero =>
      intro s h0 _
      exact absurd h0 (by omega)
  | succ f ih =>
      intro s _ hlt
      rw [Retry.runLoop]
      cases hp : Retry.runPass attempt summarize now maxIterations s with
      | inl out => simp
      | inr s' =>
          simp only []
          have hit := runPass_continue_iterations attempt summarize now maxIterations s s' hp
          have hg : s.iterations < maxIterations := by
            by_contra hge
            rw [runPass_budget attempt summarize now maxIterations s (by omega)] at hp
            cases hp
          exact ih s' (by omega) (by omega)

/-- Under an always-retryable-failure collaborator the loop ends in the
budget-exhausted payload. -/
lemma runLoop_budget_of_fail (attempt : Retry.AttemptOracle)
    (summarize : List Retry.AgentMessage → String) (now maxIterations : Nat)
    (hfail : ∀ p t m, (attempt p t m).isRetryableFailure = true) :
    ∀ fuel s, 0 < fuel → maxIterations < s.iterations + fuel →
      ∃ u, Retry.runLoop attempt summarize now maxIterations fuel s =
        some ⟨[⟨Retry.budgetExhaustedText, true⟩], u⟩ := by
  intro fuel
  induction fuel with
  | zero =>
      intro s h0 _
      exact absurd h0 (by omega)
  | succ f ih =>
      intro s _ hlt
      rw [Retry.runLoop]
      cases hp : Retry.runPass attempt summarize now maxIterations s with
      | inl out =>
          refine ⟨s.totalTokenUsage, ?_⟩
          simp only [Option.some_inj]
          exact runPass_fail_inl attempt summarize now maxIterations s hfail out hp
      | inr s' =>
          simp only []
          have hit := runPass_continue_iterations attempt summarize now maxIterations s s' hp
          have hg : s.iterations < maxIterations := by
            by_contra hge
            rw [runPass_budget attempt summarize now maxIterations s (by omega)] at hp
            cases hp
          exact ih s' (by omega) (by omega)

/-- C10: `runAgentWithRetry` always returns within the iteration budget:
fuel exceeding the remaining budget makes the loop total (every pass,
including a cooldown-skip pass, first checks the guard and increments
the counter), and under persistently retryable failures — which covers
an all-profiles-in-cooldown state, where the attempt is never consulted
— the result is the budget-exhausted error payload rather than an
infinite loop. -/
theorem claim10_loop_termination (attempt : Retry.AttemptOracle)
    (summarize : List Retry.AgentMessage → String) (now : Nat) :
    (∀ maxIterations fuel s, 0 < fuel → maxIterations < s.iterations + fuel →
      (Retry.runLoop attempt summarize now maxIterations fuel s).isSome = true) ∧
    (∀ messages authProfiles thinkLevel,
      (Retry.runAgentWithRetry attempt summarize now messages authProfiles
        thinkLevel).isSome = true) ∧
    ((∀ p t m, (attempt p t m).isRetryableFailure = true) →
      ∀ messages authProfiles thinkLevel,
        ∃ u, Retry.runAgentWithRetry attempt summarize now messages authProfiles thinkLevel =
          some ⟨[⟨Retry.budgetExhaustedText, true⟩], u⟩) := by
  refine ⟨fun maxIterations fuel s h0 hlt =>
      runLoop_isSome attempt summarize now maxIterations fuel s h0 hlt,
    fun messages authProfiles thinkLevel => ?_,
    fun hfail messages authProfiles thinkLevel => ?_⟩
  · unfold Retry.runAgentWithRetry
    exact runLoop_isSome attempt summarize now _ _ _ (by omega) (by simp)
  · unfold Retry.runAgentWithRetry
    exact runLoop_budget_of_fail attempt summarize now _ hfail _ _ (by omega) (by simp)

/-- Witness for C10: an always-timeout collaborator with one profile —
the run returns, and returns the budget-exhausted payload. -/
theorem claim10_loop_witness :
    (Retry.runAgentWithRetry Fixtures.timeoutOracle (fun _ => "") 0 Fixtures.msgs0
        [Fixtures.profileA] .high).isSome = true ∧
    ∃ u, Retry.runAgentWithRetry Fixtures.timeoutOracle (fun _ => "") 0 Fixtures.msgs0
        [Fixtures.profileA] .high = some ⟨[⟨Retry.budgetExhaustedText, true⟩], u⟩ :=
  ⟨(claim10_loop_termination Fixtures.timeoutOracle (fun _ => "") 0).2.1 Fixtures.msgs0
      [Fixtures.profileA] .high,
    (claim10_loop_termination Fixtures.timeoutOracle (fun _ => "") 0).2.2 (fun _ _ _ => rfl)
      Fixtures.msgs0 [Fixtures.profileA] .high⟩

/-- C4 (amended): when every attempt fails with an overflow-classified
error, recovery never reports exhaustion — after the compaction attempts
and the downgrade to `off`, tier 5 keeps rotating (with a single profile,
back onto it) — so the run ends with the budget-exhausted payload once
`maxIterations` is consumed, not with an overflow-kind failure. -/
theorem claim4_overflow_amended (attempt : Retry.AttemptOracle)
    (summarize : List Retry.AgentMessage → String) (now : Nat)
    (messages : List Retry.AgentMessage) (profile : Retry.AuthProfile)
    (thinkLevel : Retry.ThinkLevel)
    (hover : ∀ p t m, (attempt p t m).errType = some Retry.ErrorType.overflow) :
    ∃ u, Retry.runAgentWithRetry attempt summarize now messages [profile] thinkLevel =
      some ⟨[⟨Retry.budgetExhaustedText, true⟩], u⟩ := by
  have hfail : ∀ p t m, (attempt p t m).isRetryableFailure = true := by
    intro p t m
    have h := hover p t m
    cases hres : attempt p t m with
    | ok payloads usage =>
        rw [hres] at h
        cases h
    | err e usage =>
        rw [hres] at h
        simp only [Retry.AttemptResult.errType, Option.some_inj] at h
        simp [Retry.AttemptResult.isRetryableFailure, h]
  unfold Retry.runAgentWithRetry
  exact runLoop_budget_of_fail attempt summarize now _ hfail _ _ (by omega) (by simp)

/-- Witness for C4: the concrete always-overflow collaborator with the
single profile `A`. -/
theorem claim4_overflow_witness :
    ∃ u, Retry.runAgentWithRetry Fixtures.overflowOracle (fun _ => "") 0 Fixtures.msgs0
        [Fixtures.profileA] .high = some ⟨[⟨Retry.budgetExhaustedText, true⟩], u⟩ :=
  claim4_overflow_amended Fixtures.overflowOracle (fun _ => "") 0 Fixtures.msgs0
    Fixtures.profileA .high (fun _ _ _ => rfl)

/-- C5: on a classified failure inside the budget with the selected
profile not in cooldown, the recovery dispatch sets the failing
profile's cooldown expiry to `now + 60 000 ms` for `auth` and
`now + 30 000 ms` for `timeout` (rotating to the next index in both
cases), while `rate_limit` writes no cooldown and keeps the same profile
index — the retry happens in place after the fixed sleep. -/
theorem claim5_cooldown_dispatch (attempt : Retry.AttemptOracle)
    (summarize : List Retry.AgentMessage → String) (now maxIterations : Nat)
    (s : Retry.RunLoopState)
    (hguard : s.iterations < maxIterations)
    (hcool : Retry.cooldownActive (Retry.selectedProfile s).cooldownUntil now = false) :
    (∀ e u, attempt (Retry.selectedProfile s) s.currentThinkLevel s.messages = .err e u →
      e.type = .auth →
      Retry.runPass attempt summarize now maxIterations s = .inr
        ⟨s.iterations + 1, s.overflowCompactionAttempts, s.currentProfileIndex + 1,
         s.currentThinkLevel, s.messages, Retry.addUsage s.totalTokenUsage u,
         s.profiles.set (Retry.selectedIdx s)
           { Retry.selectedProfile s with cooldownUntil := some (now + 60000) }⟩) ∧
    (∀ e u, attempt (Retry.selectedProfile s) s.currentThinkLevel s.messages = .err e u →
      e.type = .timeout →
      Retry.runPass attempt summarize now maxIterations s = .inr
        ⟨s.iterations + 1, s.overflowCompactionAttempts, s.currentProfileIndex + 1,
         s.currentThinkLevel, s.messages, Retry.addUsage s.totalTokenUsage u,
         s.profiles.set (Retry.selectedIdx s)
           { Retry.selectedProfile s with cooldownUntil := some (now + 30000) }⟩) ∧
    (∀ e u, attempt (Retry.selectedProfile s) s.currentThinkLevel s.messages = .err e u →
      e.type = .rate_limit →
      Retry.runPass attempt summarize now maxIterations s = .inr
        ⟨s.iterations + 1, s.overflowCompactionAttempts, s.currentProfileIndex,
         s.currentThinkLevel, s.messages, Retry.addUsage s.totalTokenUsage u,
         s.profiles⟩) := by
  simp only [Retry.selectedProfile, Retry.selectedIdx] at hcool ⊢
  refine ⟨?_, ?_, ?_⟩ <;>
    (intro e u hatt htype
     simp only [Retry.runPass, if_neg (not_le.mpr hguard)]
     rw [if_neg (by rw [hcool]; simp)]
     rw [hatt]
     dsimp only
     rw [htype])

/-- Witness for C5: the three dispatch branches at a concrete one-profile
state with the auth, timeout and rate-limit collaborators. -/
theorem claim5_cooldown_witness :
    Retry.runPass Fixtures.authOracle (fun _ => "") 0 32 Fixtures.state0 = .inr
      ⟨Fixtures.state0.iterations + 1, Fixtures.state0.overflowCompactionAttempts,
       Fixtures.state0.currentProfileIndex + 1, Fixtures.state0.currentThinkLevel,
       Fixtures.state0.messages, Retry.addUsage Fixtures.state0.totalTokenUsage ⟨3, 4⟩,
       Fixtures.state0.profiles.set (Retry.selectedIdx Fixtures.state0)
         { Retry.selectedProfile Fixtures.state0 with cooldownUntil := some (0 + 60000) }⟩ ∧
    Retry.runPass Fixtures.timeoutOracle (fun _ => "") 0 32 Fixtures.state0 = .inr
      ⟨Fixtures.state0.iterations + 1, Fixtures.state0.overflowCompactionAttempts,
       Fixtures.state0.currentProfileIndex + 1, Fixtures.state0.currentThinkLevel,
       Fixtures.state0.messages, Retry.addUsage Fixtures.state0.totalTokenUsage ⟨3, 4⟩,
       Fixtures.state0.profiles.set (Retry.selectedIdx Fixtures.state0)
         { Retry.selectedProfile Fixtures.state0 with cooldownUntil := some (0 + 30000) }⟩ ∧
    Retry.runPass Fixtures.rateLimitOracle (fun _ => "") 0 32 Fixtures.state0 = .inr
      ⟨Fixtures.state0.iterations + 1, Fixtures.state0.overflowCompactionAttempts,
       Fixtures.state0.currentProfileIndex, Fixtures.state0.currentThinkLevel,
       Fixtures.state0.messages, Retry.addUsage Fixtures.state0.totalTokenUsage ⟨3, 4⟩,
       Fixtures.state0.profiles⟩ :=
  ⟨(claim5_cooldown_dispatch Fixtures.authOracle (fun _ => "") 0 32 Fixtures.state0
      (by decide) (by decide)).1 ⟨.auth, "401 unauthorized", true⟩ ⟨3, 4⟩ rfl rfl,
   (claim5_cooldown_dispatch Fixtures.timeoutOracle (fun _ => "") 0 32 Fixtures.state0
      (by decide) (by decide)).2.1 ⟨.timeout, "request timed out", true⟩ ⟨3, 4⟩ rfl rfl,
   (claim5_cooldown_dispatch Fixtures.rateLimitOracle (fun _ => "") 0 32 Fixtures.state0
      (by decide) (by decide)).2.2 ⟨.rate_limit, "429 too many requests", true⟩ ⟨3, 4⟩ rfl rfl⟩

/-- Summing `f` of the second components over an enumerated list is the
same as summing `f` over the list itself. -/
lemma map_enum_snd {A B : Type} (f : A → B) (l : List A) :
    l.enum.map (fun p => f p.2) = l.map f := by
  conv_rhs => rw [← List.enum_map_snd l]
  rw [List.map_map]
  rfl

/-- The prune pass never increases the conversation's size estimate,
provided the estimator charges the replacement placeholder no more than
any completed tool output it might replace: pruning only swaps a subset
of tool outputs for the placeholder. -/
lemma prune_estimate_le (est : String → Nat) (conv : List OpenCodePrune.PMessage)
    (hplaceholder : ∀ m ∈ conv, ∀ p ∈ m.parts, p.isTool = true →
      est OpenCodePrune.PRUNE_PLACEHOLDER ≤ est p.output) :
    OpenCodePrune.convEstimate est (OpenCodePrune.prune est conv) ≤
      OpenCodePrune.convEstimate est conv := by
  unfold OpenCodePrune.prune
  dsimp only
  split
  · have hrhs : OpenCodePrune.convEstimate est conv =
        (conv.enum.map (fun mp => OpenCodePrune.msgEstimate est mp.2)).sum := by
      unfold OpenCodePrune.convEstimate
      rw [map_enum_snd]
    rw [hrhs]
    unfold OpenCodePrune.convEstimate
    rw [List.map_map]
    apply List.sum_le_sum
    intro mp hmp
    have hmem : mp.2 ∈ conv := by
      rw [← List.enum_map_snd conv]
      exact List.mem_map_of_mem Prod.snd hmp
    show OpenCodePrune.msgEstimate est _ ≤ OpenCodePrune.msgEstimate est mp.2
    have hrhs2 : OpenCodePrune.msgEstimate est mp.2 =
        (mp.2.parts.enum.map (fun pp => est pp.2.output)).sum := by
      unfold OpenCodePrune.msgEstimate
      rw [map_enum_snd (fun p : OpenCodePrune.Part => est p.output) mp.2.parts]
    rw [hrhs2]
    unfold OpenCodePrune.msgEstimate
    simp only [List.map_map]
    apply List.sum_le_sum
    intro pp hpp
    have hpmem : pp.2 ∈ mp.2.parts := by
      rw [← List.enum_map_snd mp.2.parts]
      exact List.mem_map_of_mem Prod.snd hpp
    simp only [Function.comp]
    split
    · unfold OpenCodePrune.clearPart
      split
      · rename_i htool
        exact hplaceholder mp.2 hmem pp.2 hpmem htool
      · exact le_refl _
    · exact le_refl _
  · exact le_refl _

/-- Splitting a conversation at any index splits its character count. -/
lemma messagesChars_take_drop (k : Nat) (msgs : List Retry.AgentMessage) :
    Retry.messagesChars (msgs.take k) + Retry.messagesChars (msgs.drop k) =
      Retry.messagesChars msgs := by
  unfold Retry.messagesChars
  rw [← List.sum_append, ← List.map_append, List.take_append_drop]

/-- Compaction strictly shrinks the character count exactly when the
summarized prefix outweighs the 88 characters of wrapper text plus the
summary it is replaced with. -/
lemma compact_chars_lt (summarize : List Retry.AgentMessage → String)
    (msgs : List Retry.AgentMessage) (attempt : Nat)
    (hbig : (summarize (msgs.take
          (msgs.length - Retry.compactKeepCount attempt msgs.length))).length + 88 <
      Retry.messagesChars (msgs.take
        (msgs.length - Retry.compactKeepCount attempt msgs.length))) :
    Retry.messagesChars (Retry.compactMessages summarize msgs attempt) <
      Retry.messagesChars msgs := by
  unfold Retry.compactMessages
  dsimp only
  have h1 : Retry.messagesChars
      (⟨Retry.Role.user, "<context_summary>\n" ++
          summarize (msgs.take (msgs.length - Retry.compactKeepCount attempt msgs.length)) ++
          "\n</context_summary>"⟩ ::
        ⟨Retry.Role.assistant, "Understood. Continuing with the summarized context."⟩ ::
        msgs.drop (msgs.length - Retry.compactKeepCount attempt msgs.length)) =
      (18 + (summarize (msgs.take
          (msgs.length - Retry.compactKeepCount attempt msgs.length))).length + 19) +
        (51 + Retry.messagesChars
          (msgs.drop (msgs.length - Retry.compactKeepCount attempt msgs.length))) := by
    unfold Retry.messagesChars
    simp only [List.map_cons, List.sum_cons]
    rw [String.length_append, String.length_append]
    have e1 : ("<context_summary>\n" : String).length = 18 := by decide
    have e2 : ("\n</context_summary>" : String).length = 19 := by decide
    have e3 : ("Understood. Continuing with the summarized context." : String).length = 51 := by
      decide
    rw [e1, e2, e3]
  rw [h1]
  have h2 := messagesChars_take_drop
    (msgs.length - Retry.compactKeepCount attempt msgs.length) msgs
  omega

/-- C6 (amended): for an oversized conversation, the tier-1 prune never
increases the size estimate provided the estimator charges the
placeholder no more than any completed tool output; and the tier-2
compaction strictly reduces the (character-count) estimate provided the
summarized prefix is larger than the 88 characters of inserted wrapper
turns plus the produced summary.  (Unconditionally, compaction can
strictly *increase* the estimate — see the counterexample.) -/
theorem claim6_recovery_estimates (est : String → Nat) (budget : Nat)
    (conv : List OpenCodePrune.PMessage)
    (_hoversized : budget < OpenCodePrune.convEstimate est conv)
    (hplaceholder : ∀ m ∈ conv, ∀ p ∈ m.parts, p.isTool = true →
      est OpenCodePrune.PRUNE_PLACEHOLDER ≤ est p.output)
    (summarize : List Retry.AgentMessage → String) (msgs : List Retry.AgentMessage)
    (attempt : Nat)
    (hbig : (summarize (msgs.take
          (msgs.length - Retry.compactKeepCount attempt msgs.length))).length + 88 <
      Retry.messagesChars (msgs.take
        (msgs.length - Retry.compactKeepCount attempt msgs.length))) :
    OpenCodePrune.convEstimate est (OpenCodePrune.prune est conv) ≤
      OpenCodePrune.convEstimate est conv ∧
    Retry.messagesChars (Retry.compactMessages summarize msgs attempt) <
      Retry.messagesChars msgs :=
  ⟨prune_estimate_le est conv hplaceholder, compact_chars_lt summarize msgs attempt hbig⟩

/-- Witness for C6: a conversation with two 41K-estimate tool outputs
(prune fires and does not increase the estimate) and a four-turn
conversation whose summarized half outweighs the inserted turns
(compaction strictly shrinks it). -/
theorem claim6_recovery_witness :
    OpenCodePrune.convEstimate Fixtures.est1000
        (OpenCodePrune.prune Fixtures.est1000 Fixtures.pruneConv) ≤
      OpenCodePrune.convEstimate Fixtures.est1000 Fixtures.pruneConv ∧
    Retry.messagesChars (Retry.compactMessages (fun _ => "") Fixtures.bigMsgs 1) <
      Retry.messagesChars Fixtures.bigMsgs :=
  claim6_recovery_estimates Fixtures.est1000 0 Fixtures.pruneConv (by decide) (by decide)
    (fun _ => "") Fixtures.bigMsgs 1 (by decide)

/-- C7 (amended): `compactMessages` builds a fresh sequence, but the
in-place operations are real: `truncateOversizedToolResults` leaves the
caller's conversation unchanged (and truncates nothing) precisely in the
benign case that no tool-result turn exceeds 30 % of the context budget;
when one does, the input conversation is rewritten (see the
counterexample), and the part_003 prune likewise stamps pruned parts in
place. -/
theorem claim7_truncate_no_mutation (w : Nat) (ms : List ContextRecovery.Msg)
    (hnone : ∀ m ∈ ms, ¬(m.role = Retry.Role.toolResult ∧
      ContextRecovery.maxToolResultChars w < m.content.length)) :
    (ContextRecovery.truncateOversizedToolResults ms w).1 = ms ∧
    (ContextRecovery.truncateOversizedToolResults ms w).2 = 0 := by
  unfold ContextRecovery.truncateOversizedToolResults
  dsimp only
  constructor
  · have hid : ∀ m ∈ ms,
        ContextRecovery.truncateMsg (ContextRecovery.maxToolResultChars w) m = m := by
      intro m hm
      unfold ContextRecovery.truncateMsg
      rw [if_neg (hnone m hm)]
    calc ms.map (ContextRecovery.truncateMsg (ContextRecovery.maxToolResultChars w))
        = ms.map id := List.map_congr_left hid
      _ = ms := List.map_id ms
  · rw [List.length_eq_zero, List.filter_eq_nil_iff]
    intro m hm
    simp only [decide_eq_true_eq]
    exact hnone m hm

/-- Witness for C7: a small conversation with no oversized tool result
passes through truncation untouched. -/
theorem claim7_truncate_witness :
    (ContextRecovery.truncateOversizedToolResults Fixtures.smallMsgs 10).1 =
      Fixtures.smallMsgs ∧
    (ContextRecovery.truncateOversizedToolResults Fixtures.smallMsgs 10).2 = 0 :=
  claim7_truncate_no_mutation 10 Fixtures.smallMsgs (by decide)

/-- Records that match neither by call id nor by (toolName, argsHash,
no-result) are scanned past without being touched. -/
lemma outcomePatch_append_nomatch (toolName argsHash resultHash : String)
    (callId : Option String) (pre rest : List LoopGuard.ToolCallRecord)
    (hpre : ∀ r ∈ pre, LoopGuard.matchesById callId r = false ∧
      LoopGuard.matchesByArgs toolName argsHash r = false) :
    LoopGuard.outcomePatch toolName argsHash resultHash callId (pre ++ rest) =
      (LoopGuard.outcomePatch toolName argsHash resultHash callId rest).map (pre ++ ·) := by
  induction pre with
  | nil =>
      cases h : LoopGuard.outcomePatch toolName argsHash resultHash callId rest <;> simp [h]
  | cons p pre ih =>
      have hp := hpre p (by simp)
      have hpre' : ∀ r ∈ pre, LoopGuard.matchesById callId r = false ∧
          LoopGuard.matchesByArgs toolName argsHash r = false :=
        fun r hr => hpre r (by simp [hr])
      rw [List.cons_append, LoopGuard.outcomePatch]
      simp only [hp.1, hp.2, Bool.false_eq_true, if_false]
      rw [ih hpre']
      cases h : LoopGuard.outcomePatch toolName argsHash resultHash callId rest <;> simp [h]

/-- C9 (amended): when a tool result becomes known, the guard patches the
result fingerprint into exactly one window record — scanning from the
newest record backward, the first one matching the call id or, failing
that, carrying the same `(toolName, argsFingerprint)` with no result
yet.  With several unmatched records for the same pair, it is therefore
the **newest** one that is patched, not the oldest. -/
theorem claim9_outcome_newest (histOlder histNewer : List LoopGuard.ToolCallRecord)
    (r : LoopGuard.ToolCallRecord) (toolName params resultHash : String)
    (callId : Option String)
    (hmatch : LoopGuard.matchesById callId r = true ∨
      LoopGuard.matchesByArgs toolName (LoopGuard.digestStable params) r = true)
    (hafter : ∀ r' ∈ histNewer, LoopGuard.matchesById callId r' = false ∧
      LoopGuard.matchesByArgs toolName (LoopGuard.digestStable params) r' = false) :
    LoopGuard.recordToolCallOutcome ⟨histOlder ++ r :: histNewer⟩ toolName params resultHash
        callId =
      ⟨histOlder ++ { r with resultHash := some resultHash } :: histNewer⟩ := by
  unfold LoopGuard.recordToolCallOutcome
  have hne : (histOlder ++ r :: histNewer).isEmpty = false := by
    cases histOlder <;> simp
  simp only [hne, Bool.false_eq_true, if_false]
  have hrev : (histOlder ++ r :: histNewer).reverse =
      histNewer.reverse ++ r :: histOlder.reverse := by
    simp [List.reverse_append]
  rw [hrev]
  have hpre : ∀ r' ∈ histNewer.reverse, LoopGuard.matchesById callId r' = false ∧
      LoopGuard.matchesByArgs toolName (LoopGuard.digestStable params) r' = false :=
    fun r' hr' => hafter r' (List.mem_reverse.mp hr')
  rw [outcomePatch_append_nomatch toolName (LoopGuard.digestStable params) resultHash callId
    histNewer.reverse (r :: histOlder.reverse) hpre]
  have hhead : LoopGuard.outcomePatch toolName (LoopGuard.digestStable params) resultHash
      callId (r :: histOlder.reverse) =
        some ({ r with resultHash := some resultHash } :: histOlder.reverse) := by
    cases hid : LoopGuard.matchesById callId r with
    | true =>
        rw [LoopGuard.outcomePatch]
        simp [hid]
    | false =>
        have hargs : LoopGuard.matchesByArgs toolName (LoopGuard.digestStable params) r =
            true := by
          rcases hmatch with h | h
          · rw [hid] at h
            cases h
          · exact h
        rw [LoopGuard.outcomePatch]
        simp [hid, hargs]
  rw [hhead]
  simp [List.reverse_append]

/-- Witness for C9: an older unmatched record is present, yet the newer
matching record receives the patch. -/
theorem claim9_outcome_witness :
    LoopGuard.recordToolCallOutcome ⟨[Fixtures.recOld, Fixtures.recNew]⟩ "t" "a" "h" none =
      ⟨[Fixtures.recOld, { Fixtures.recNew with resultHash := some "h" }]⟩ :=
  claim9_outcome_newest [Fixtures.recOld] [] Fixtures.recNew "t" "a" "h" none
    (Or.inr (by decide)) (by decide)
